import Mathlib

/-!
Verification development for the Tableau workbook generation engine
(src/tableau_engine/generator.py and src/models/schemas.py).

The Python data model (pydantic models in schemas.py) is embedded as plain
Lean structures; pydantic construction-time validation is embedded as
explicit `mk…`/`valid…` functions.  The XML-building methods of
`TableauWorkbookGenerator` are embedded as pure functions producing an
explicit XML tree; methods whose Python counterparts can raise are embedded
in `Except String`, the error being the Python exception's message.
Python `Any`-typed dictionary payloads that the generator never reads are
modelled as string association lists; `datetime` timestamp fields with
`default_factory=datetime.now` (never read by the generator) are omitted.
-/

/-- An XML element as built by `xml.etree.ElementTree`: a tag, an ordered
attribute list (`Element.set` calls in source order), optional text and an
ordered list of child elements (`SubElement` calls in source order). -/
inductive Xml where
  | elem (tag : String) (attrs : List (String × String)) (text : Option String)
      (children : List Xml)

/-- The tag of an element. -/
def Xml.tag : Xml → String
  | .elem t _ _ _ => t

/-- The attribute list of an element. -/
def Xml.attrList : Xml → List (String × String)
  | .elem _ a _ _ => a

/-- The text of an element. -/
def Xml.text : Xml → Option String
  | .elem _ _ t _ => t

/-- The children of an element. -/
def Xml.children : Xml → List Xml
  | .elem _ _ _ c => c

/-- Attribute lookup, as `Element.get(key)` in Python. -/
def Xml.attr (x : Xml) (key : String) : Option String :=
  x.attrList.lookup key

/-- `DataType` enum of schemas.py (values are the Python enum `.value`s). -/
inductive DataType where
  | integer | float | string | date | datetime | boolean | categorical
deriving DecidableEq

/-- The `.value` of a `DataType` member. -/
def DataType.value : DataType → String
  | .integer => "integer"
  | .float => "float"
  | .string => "string"
  | .date => "date"
  | .datetime => "datetime"
  | .boolean => "boolean"
  | .categorical => "categorical"

/-- `VisualizationType` enum of schemas.py (14 members). -/
inductive VisualizationType where
  | bar | line | area | scatter | pie | histogram | heatmap | treemap
  | map | filled_map | gantt | packed_bubbles | box_plot | bullet_graph
deriving DecidableEq

/-- `ColorScheme` enum of schemas.py (9 members). -/
inductive ColorScheme where
  | tableau10 | tableau20 | category10 | blues | oranges | greens
  | red_blue | orange_blue | green_orange
deriving DecidableEq

/-- `DataColumn` model (schemas.py).  `sample_values : List[Any]` is
modelled as a list of strings; `statistics : Optional[Dict[str, float]]`
as an optional association list over rationals. -/
structure DataColumn where
  name : String
  data_type : DataType
  unique_values : Nat
  null_count : Nat
  sample_values : List String
  statistics : Option (List (String × Rat))
  is_key_field : Bool
  recommended_role : Option String
deriving DecidableEq

/-- `CalculatedFieldSpec` model (schemas.py).  `role` defaults to
`"measure"` and is declared `Optional[Literal["dimension", "measure"]]`. -/
structure CalculatedFieldSpec where
  name : String
  formula : String
  data_type : DataType
  role : Option String
deriving DecidableEq

/-- `DatasetSchema` model (schemas.py).  The `created_at` timestamp (never
read by the generator) is omitted. -/
structure DatasetSchema where
  name : String
  total_rows : Nat
  total_columns : Nat
  columns : List DataColumn
  data_quality_score : Rat
  business_context : Option String
  calculated_fields : List CalculatedFieldSpec
deriving DecidableEq

/-- `KPISpecification` model (schemas.py). -/
structure KPISpecification where
  name : String
  description : String
  calculation : String
  target_value : Option Rat
  format_string : String
  priority : Nat
deriving DecidableEq

/-- `VisualizationSpec` model (schemas.py).  `aggregation_type` is declared
`Optional[Literal["sum", "avg", "count", "min", "max"]]` with default
`"sum"`; the runtime value is modelled as `Option String` and the Literal
constraint as `validAggregationType` checked by the pydantic constructor
`mkVisualizationSpec`.  `filters : List[Dict[str, Any]]` is modelled as a
list of string association lists. -/
structure VisualizationSpec where
  chart_type : VisualizationType
  title : String
  x_axis : List String
  y_axis : List String
  color_field : Option String
  size_field : Option String
  filters : List (List (String × String))
  color_scheme : ColorScheme
  show_labels : Bool
  show_legend : Bool
  aggregation_type : Option String
deriving DecidableEq

/-- The `Optional[Literal["sum", "avg", "count", "min", "max"]]` constraint
pydantic enforces on `VisualizationSpec.aggregation_type` at construction:
the field may be absent (`None`) or one of the five listed strings. -/
def validAggregationType : Option String → Bool
  | none => true
  | some s => ["sum", "avg", "count", "min", "max"].contains s

/-- Pydantic construction of a `VisualizationSpec`: all other fields are
constrained only by their (already precise) types; `aggregation_type` must
satisfy the `Literal` constraint, otherwise construction raises a
`ValidationError`. -/
def mkVisualizationSpec (chart_type : VisualizationType) (title : String)
    (x_axis y_axis : List String) (color_field size_field : Option String)
    (filters : List (List (String × String))) (color_scheme : ColorScheme)
    (show_labels show_legend : Bool) (aggregation_type : Option String) :
    Except String VisualizationSpec :=
  if validAggregationType aggregation_type then
    .ok { chart_type := chart_type, title := title, x_axis := x_axis,
          y_axis := y_axis, color_field := color_field,
          size_field := size_field, filters := filters,
          color_scheme := color_scheme, show_labels := show_labels,
          show_legend := show_legend, aggregation_type := aggregation_type }
  else
    .error "ValidationError: unexpected value; permitted: sum, avg, count, min, max"

/-- Width/height dictionaries (`Dict[str, int]` with default keys
`"width"`/`"height"`) used by `WorksheetSpec.dimensions` and
`DashboardSpec.dimensions`. -/
structure Dimensions where
  width : Nat
  height : Nat
deriving DecidableEq

/-- `WorksheetSpec` model (schemas.py). -/
structure WorksheetSpec where
  name : String
  visualization : VisualizationSpec
  kpis : List KPISpecification
  description : Option String
  dimensions : Dimensions
deriving DecidableEq

/-- `DashboardLayout` model (schemas.py); `worksheet_positions` is modelled
as an association list of integer pairs. -/
structure DashboardLayout where
  layout_type : String
  rows : Nat
  columns : Nat
  worksheet_positions : List (String × (Int × Int))
deriving DecidableEq

/-- The default `DashboardLayout` (pydantic field defaults). -/
def defaultDashboardLayout : DashboardLayout :=
  { layout_type := "automatic", rows := 2, columns := 2,
    worksheet_positions := [] }

/-- `DashboardSpec` model (schemas.py). -/
structure DashboardSpec where
  name : String
  description : String
  worksheets : List WorksheetSpec
  layout : DashboardLayout
  global_filters : List (List (String × String))
  color_scheme : ColorScheme
  dimensions : Dimensions
deriving DecidableEq

/-- `TableauWorkbookSpec` model (schemas.py); `created_at` omitted as for
`DatasetSchema`. -/
structure TableauWorkbookSpec where
  name : String
  description : String
  dashboards : List DashboardSpec
  data_source : String
  version : String
  created_by : String
deriving DecidableEq

/-- `AIRecommendation` model (schemas.py). -/
structure AIRecommendation where
  confidence_score : Rat
  reasoning : String
  alternatives : List String
deriving DecidableEq

/-- `AIAnalysisResponse` model (schemas.py); `dataset_insights`
(`Dict[str, Any]`, never read by the generator) is modelled as a string
association list and `generated_at` is omitted. -/
structure AIAnalysisResponse where
  dataset_insights : List (String × String)
  recommended_kpis : List KPISpecification
  recommended_visualizations : List VisualizationSpec
  dashboard_recommendations : AIRecommendation
  layout_suggestions : AIRecommendation
  color_scheme_recommendation : AIRecommendation
  performance_considerations : List String
deriving DecidableEq

/-- `GenerationRequest` model (schemas.py); `output_format` is declared
`Literal["twb", "twbx"]` and is modelled as the runtime string. -/
structure GenerationRequest where
  dataset_schema : DatasetSchema
  ai_analysis : AIAnalysisResponse
  user_preferences : List (String × String)
  output_format : String
  include_sample_data : Bool
deriving DecidableEq

/-- `GenerationResult` model (schemas.py); `generation_time` (a float of
elapsed seconds) is modelled as a rational. -/
structure GenerationResult where
  workbook_spec : TableauWorkbookSpec
  file_path : String
  generation_time : Rat
  warnings : List String
  success : Bool
  error_message : Option String
deriving DecidableEq

/-- `ValidationResult` model (schemas.py): four plain fields, with no
validator relating `is_valid` to `errors`. -/
structure ValidationResult where
  is_valid : Bool
  errors : List String
  warnings : List String
  suggestions : List String
deriving DecidableEq

/-- Pydantic construction of a `ValidationResult`: the model declares no
field constraints beyond the types and no cross-field validator, so
construction always succeeds with exactly the given field values. -/
def mkValidationResult (is_valid : Bool)
    (errors warnings suggestions : List String) : ValidationResult :=
  { is_valid := is_valid, errors := errors, warnings := warnings,
    suggestions := suggestions }

/-! ## The generator (src/tableau_engine/generator.py)

`TableauWorkbookGenerator` holds `output_directory` (a constructor argument)
and two version constants; the instance state is passed here as explicit
arguments/constants.  `_generate_id` returns 8 hex characters of a fresh
`uuid4`; the generated token is passed in as the `genId` argument. -/

/-- `self.tableau_version` constant. -/
def tableauVersion : String := "2023.3"

/-- `self.build_version` constant. -/
def buildVersion : String := "20233.23.0322.1437"

/-- Python `str.title()`: the first alphabetic character of each maximal
alphabetic run is uppercased and the following alphabetic characters are
lowercased (ASCII case mapping suffices for the strings this program
titles). -/
def pyTitleAux : Bool → List Char → List Char
  | _, [] => []
  | prevAlpha, c :: cs =>
    (if c.isAlpha then (if prevAlpha then c.toLower else c.toUpper) else c)
      :: pyTitleAux c.isAlpha cs

/-- Python `str.title()`. -/
def pyTitle (s : String) : String := String.mk (pyTitleAux false s.toList)

/-- `_get_tableau_data_type`: a fixed dictionary keyed by the enum value,
with `.get(…, "string")` default. -/
def getTableauDataType (data_type : DataType) : String :=
  (([("integer", "integer"), ("float", "real"), ("string", "string"),
     ("datetime", "datetime"), ("boolean", "boolean"),
     ("categorical", "string")] : List (String × String)).lookup
    data_type.value).getD "string"

/-- `_get_tableau_mark_type`: a fixed dictionary keyed by the
`VisualizationType` member, with `.get(…, "Automatic")` default. -/
def getTableauMarkType (chart_type : VisualizationType) : String :=
  match chart_type with
  | .bar => "Bar"
  | .line => "Line"
  | .area => "Area"
  | .scatter => "Circle"
  | .pie => "Pie"
  | .heatmap => "Square"
  | .treemap => "Square"
  | .map => "Map"
  | _ => "Automatic"

/-- Python dict subscription `calc_field['…']` as it executes in
`_add_calculated_field_metadata` and `_create_datasource_element`: the
caller passes elements of `DatasetSchema.calculated_fields`, declared
`List[CalculatedFieldSpec]`, so each element is a pydantic model instance.
Pydantic `BaseModel` does not implement `__getitem__`, so the subscription
raises `TypeError` (Python spells the message with the class name quoted).
The result type is polymorphic so each (never-reached) use site keeps the
type the surrounding source expression expects. -/
def pydanticGetItem (α : Type) (_calcField : CalculatedFieldSpec)
    (_key : String) : Except String α :=
  .error "TypeError: CalculatedFieldSpec object is not subscriptable"

/-- Python `calc_field.get('role', …)`: `get` is not an attribute of a
pydantic model either; `AttributeError` would be raised.  Only reachable
after the subscriptions above, hence dead in practice. -/
def pydanticGetAttrGet (α : Type) (_calcField : CalculatedFieldSpec)
    (_key : String) (_defaultValue : α) : Except String α :=
  .error "AttributeError: CalculatedFieldSpec object has no attribute get"

/-- `_add_column_metadata`: the metadata record for one source column at
the given 0-based ordinal. -/
def addColumnMetadata (column : DataColumn) (ordinal : Nat) : Xml :=
  Xml.elem "metadata-record" [("class", "column")] none
    [ Xml.elem "remote-name" [] (some column.name) [],
      Xml.elem "remote-type" [] (some (getTableauDataType column.data_type)) [],
      Xml.elem "local-name" [] (some ("[" ++ column.name ++ "]")) [],
      Xml.elem "parent-name" [] (some ("[" ++ column.name ++ "]")) [],
      Xml.elem "remote-alias" [] (some column.name) [],
      Xml.elem "ordinal" [] (some (toString ordinal)) [],
      Xml.elem "local-type" [] (some (getTableauDataType column.data_type)) [],
      Xml.elem "aggregation" []
        (some (if column.recommended_role = some "measure" then "Sum" else "Count")) [],
      Xml.elem "contains-null" []
        (some (if column.null_count > 0 then "true" else "false")) [] ]

/-- `_add_calculated_field_metadata`: the metadata record for one
calculated field.  Its first statement already subscripts the pydantic
model (`calc_field['name']`), which raises `TypeError`; the element
construction below the first bind is therefore dead code, kept to mirror
the source. -/
def addCalculatedFieldMetadata (calcField : CalculatedFieldSpec)
    (ordinal : Nat) : Except String Xml := do
  let name ← pydanticGetItem String calcField "name"
  let dataTypeValue ← pydanticGetItem DataType calcField "data_type"
  let formula ← pydanticGetItem String calcField "formula"
  let role ← pydanticGetAttrGet String calcField "role" "measure"
  pure (Xml.elem "metadata-record" [("class", "column")] none
    [ Xml.elem "remote-name" [] (some name) [],
      Xml.elem "remote-type" [] (some (getTableauDataType dataTypeValue)) [],
      Xml.elem "local-name" [] (some ("[" ++ name ++ "]")) [],
      Xml.elem "parent-name" [] (some ("[" ++ name ++ "]")) [],
      Xml.elem "remote-alias" [] (some name) [],
      Xml.elem "ordinal" [] (some (toString ordinal)) [],
      Xml.elem "local-type" [] (some (getTableauDataType dataTypeValue)) [],
      Xml.elem "aggregation" []
        (some (if role = "measure" then "Sum" else "Count")) [],
      Xml.elem "contains-null" [] (some "false") [],
      Xml.elem "calculation" [("formula", formula), ("type", "tableau")] none [] ])

/-- A `for i, x in enumerate(l)` loop body collecting one value per
iteration, starting the counter at `k`. -/
def enumMapFrom {α β : Type} (f : Nat → α → β) : Nat → List α → List β
  | _, [] => []
  | k, a :: as => f k a :: enumMapFrom f (k + 1) as

/-- The calculated-field half of the `metadata-records` loop in
`_create_datasource_element`: `for j, calc_field in
enumerate(calculated_fields)` with ordinal `len(columns) + j`; the counter
starts at `len(columns)`. -/
def calcMetadataFrom : Nat → List CalculatedFieldSpec → Except String (List Xml)
  | _, [] => .ok []
  | k, c :: cs => do
    let record ← addCalculatedFieldMetadata c k
    let rest ← calcMetadataFrom (k + 1) cs
    pure (record :: rest)

/-- The `column-instance` element for one source column. -/
def columnInstanceOf (column : DataColumn) : Xml :=
  Xml.elem "column-instance"
    [ ("column", "[" ++ column.name ++ "]"), ("derivation", "None"),
      ("name", "[" ++ column.name ++ "]"), ("pivot", "key"),
      ("type", if column.recommended_role = some "dimension"
               then "nominal" else "quantitative") ] none []

/-- The calculated-field half of the `column-instances` loop: again
subscripts the pydantic model with `calc_field['name']`, raising
`TypeError` (dead in practice: the metadata loop above it raises first). -/
def calcColumnInstances : List CalculatedFieldSpec → Except String (List Xml)
  | [] => .ok []
  | c :: cs => do
    let name ← pydanticGetItem String c "name"
    let role ← pydanticGetAttrGet String c "role" "dimension"
    let rest ← calcColumnInstances cs
    pure (Xml.elem "column-instance"
      [ ("column", "[" ++ name ++ "]"), ("derivation", "Calculation"),
        ("name", "[" ++ name ++ "]"), ("pivot", "key"),
        ("type", if role = "dimension" then "nominal" else "quantitative") ]
      none [] :: rest)

/-- The `connection` subtree of the embedded datasource. -/
def connectionElement (outputDirectory : String) (schema : DatasetSchema) : Xml :=
  Xml.elem "connection" [("class", "federated")] none
    [ Xml.elem "named-connections" [] none
        [ Xml.elem "named-connection"
            [("caption", schema.name), ("name", "textscan")] none
            [ Xml.elem "connection"
                [ ("class", "textscan"), ("directory", outputDirectory),
                  ("filename", schema.name ++ ".csv"), ("password", ""),
                  ("server", "") ] none [] ] ],
      Xml.elem "relation"
        [ ("connection", "textscan"), ("name", schema.name ++ ".csv"),
          ("table", "[" ++ schema.name ++ ".csv]"), ("type", "table") ]
        none [] ]

/-- The `metadata-records` children in `_create_datasource_element`: one
record per source column in column order (ordinal = 0-based column index),
then, when `calculated_fields` is non-empty, one record per calculated
field (ordinal continuing from `len(columns)`). -/
def datasourceMetadataRecords (schema : DatasetSchema) :
    Except String (List Xml) := do
  let columnRecords := enumMapFrom (fun i c => addColumnMetadata c i) 0 schema.columns
  let calcRecords ←
    if schema.calculated_fields ≠ [] then
      calcMetadataFrom schema.columns.length schema.calculated_fields
    else
      pure []
  pure (columnRecords ++ calcRecords)

/-- The `column-instances` children in `_create_datasource_element`. -/
def datasourceColumnInstances (schema : DatasetSchema) :
    Except String (List Xml) := do
  let columnPart := schema.columns.map columnInstanceOf
  let calcPart ←
    if schema.calculated_fields ≠ [] then
      calcColumnInstances schema.calculated_fields
    else
      pure []
  pure (columnPart ++ calcPart)

/-- `_create_datasource_element`: the embedded workbook datasource.
`genId` is the `_generate_id()` token.  The metadata-record loop runs
before the column-instance loop, so a `TypeError` from a calculated field
surfaces from the former. -/
def createDatasourceElement (outputDirectory genId : String)
    (schema : DatasetSchema) : Except String Xml := do
  let records ← datasourceMetadataRecords schema
  let instances ← datasourceColumnInstances schema
  pure (Xml.elem "datasource"
    [ ("caption", schema.name), ("name", "federated." ++ genId),
      ("version", "18.1") ] none
    [ connectionElement outputDirectory schema,
      Xml.elem "metadata-records" [] none records,
      Xml.elem "column-instances" [] none instances ])

/-- `_add_encoding`: one shelf encoding.  The `column` child's text is
`[<datasource name>].[<field name>]`; an `aggregation` attribute is set
only when the `aggregation` argument is truthy (non-`None`, non-empty) and
not the string `"none"`, title-cased by `str.title()`. -/
def addEncoding (dsName shelf fieldName : String)
    (aggregation : Option String) : Xml :=
  Xml.elem shelf [] none
    [ Xml.elem "column"
        (match aggregation with
         | some a => if a ≠ "" ∧ a ≠ "none" then [("aggregation", pyTitle a)] else []
         | none => [])
        (some ("[" ++ dsName ++ "].[" ++ fieldName ++ "]")) [] ]

/-- The encodings added by `_add_visualization_elements`, in source order:
rows per `y_axis` field (passing `viz_spec.aggregation_type`), columns per
`x_axis` field (passing the literal `"none"`), a color encoding when
`color_field` is truthy (passing `"none"`), a size encoding when
`size_field` is truthy (passing `viz_spec.aggregation_type`).  The
`if viz_spec.y_axis` / `if viz_spec.x_axis` truthiness guards are
equivalent to iterating the (possibly empty) lists. -/
def visualizationEncodings (dsName : String) (vizSpec : VisualizationSpec) :
    List Xml :=
  vizSpec.y_axis.map (fun f => addEncoding dsName "rows" f vizSpec.aggregation_type)
  ++ vizSpec.x_axis.map (fun f => addEncoding dsName "columns" f (some "none"))
  ++ (match vizSpec.color_field with
      | some f => if f ≠ "" then [addEncoding dsName "color" f (some "none")] else []
      | none => [])
  ++ (match vizSpec.size_field with
      | some f => if f ≠ "" then [addEncoding dsName "size" f vizSpec.aggregation_type] else []
      | none => [])

/-- `_add_visualization_elements`: the elements appended to a worksheet's
`view` (aggregation toggle, panes with view name, mark and encodings). -/
def visualizationViewChildren (dsName : String)
    (vizSpec : VisualizationSpec) : List Xml :=
  [ Xml.elem "aggregation" [("value", "true")] none [],
    Xml.elem "panes" [] none
      [ Xml.elem "pane"
          [("selection-relaxation-option", "selection-relaxation-allow")] none
          [ Xml.elem "view" [("name", vizSpec.title)] none [],
            Xml.elem "mark" [("class", getTableauMarkType vizSpec.chart_type)] none [],
            Xml.elem "encodings" [] none (visualizationEncodings dsName vizSpec) ] ] ]

/-- `_add_worksheet_style`: layout options with the visualization's title. -/
def worksheetStyleElement (worksheetSpec : WorksheetSpec) : Xml :=
  Xml.elem "layout-options" [] none
    [ Xml.elem "title" [] none
        [ Xml.elem "formatted-text" [] none
            [ Xml.elem "run" [] (some worksheetSpec.visualization.title) [] ] ] ]

/-- `_create_worksheet_element`: one worksheet, referencing the datasource
by its `caption`/`name` attributes. -/
def createWorksheetElement (dsCaption dsName : String)
    (worksheetSpec : WorksheetSpec) : Xml :=
  Xml.elem "worksheet" [("name", worksheetSpec.name)] none
    [ Xml.elem "table" [("name", worksheetSpec.name), ("show-empty", "true")] none
        [ Xml.elem "view" [] none
            (Xml.elem "datasources" [] none
              [ Xml.elem "datasource"
                  [("caption", dsCaption), ("name", dsName)] none [] ]
             :: visualizationViewChildren dsName worksheetSpec.visualization) ],
      worksheetStyleElement worksheetSpec ]

/-- `_add_zone_properties` plus the `zone` construction in
`_create_dashboard_element`: the zone for the worksheet at 0-based `index`
among `total` worksheets.  (The division/modulus by `cols` is only
evaluated with `total ≥ 1`, since one zone is built per worksheet.) -/
def zoneElement (total index : Nat) (worksheet : WorksheetSpec) : Xml :=
  let cols := if total > 2 then 2 else total
  let col := index % cols
  let row := index / cols
  Xml.elem "zone"
    [ ("id", toString index), ("type", "layout-basic"),
      ("x", toString (col * 400)), ("y", toString (row * 300)),
      ("w", "400"), ("h", "300") ] none
    [ Xml.elem "worksheet" [("name", worksheet.name)] none [] ]

/-- The `zones` children of a dashboard: one zone per worksheet, by
enumeration order. -/
def dashboardZones (dashboardSpec : DashboardSpec) : List Xml :=
  enumMapFrom (zoneElement dashboardSpec.worksheets.length) 0
    dashboardSpec.worksheets

/-- `_create_dashboard_element`: one dashboard with size, zones and the
always-appended auto-generated Phone device layout. -/
def createDashboardElement (dashboardSpec : DashboardSpec) : Xml :=
  Xml.elem "dashboard" [("name", dashboardSpec.name)] none
    [ Xml.elem "size"
        [ ("maxheight", toString dashboardSpec.dimensions.height),
          ("maxwidth", toString dashboardSpec.dimensions.width) ] none [],
      Xml.elem "view" [] none
        [ Xml.elem "zones" [] none (dashboardZones dashboardSpec),
          Xml.elem "devicelayouts" [] none
            [ Xml.elem "devicelayout"
                [("auto-generated", "true"), ("name", "Phone")] none [] ] ] ]

/-- `_create_windows_element`: the window name is
`workbook_spec.dashboards[0].worksheets[0].name if workbook_spec.dashboards
else "Sheet1"` — the guard checks that `dashboards` is non-empty, so when
the first dashboard exists but has no worksheets, `worksheets[0]` raises
`IndexError: list index out of range`. -/
def createWindowsElement (workbookSpec : TableauWorkbookSpec) :
    Except String Xml := do
  let windowName ←
    match workbookSpec.dashboards with
    | [] => Except.ok "Sheet1"
    | d :: _ =>
      match d.worksheets with
      | [] => Except.error "list index out of range"
      | w :: _ => Except.ok w.name
  pure (Xml.elem "window"
    [("class", "worksheet"), ("maximized", "true"), ("name", windowName)] none
    [ Xml.elem "cards" [] none
        [ Xml.elem "edge" [("name", "left")] none
            [ Xml.elem "strip" [("size", "160")] none
                [ Xml.elem "card" [("type", "data")] none [] ] ] ] ])

/-- `_generate_workbook_xml`: the complete workbook tree (the final
`minidom` pretty-printing pass is purely cosmetic string formatting and is
not modelled).  Worksheets are emitted per dashboard in order, reading the
datasource element's `caption`/`name` attributes as the source does. -/
def generateWorkbookXml (outputDirectory genId : String)
    (workbookSpec : TableauWorkbookSpec) (schema : DatasetSchema) :
    Except String Xml := do
  let datasource ← createDatasourceElement outputDirectory genId schema
  let dsCaption := (datasource.attr "caption").getD ""
  let dsName := (datasource.attr "name").getD ""
  let worksheetElems :=
    (workbookSpec.dashboards.map
      (fun d => d.worksheets.map (createWorksheetElement dsCaption dsName))).flatten
  let dashboardElems := workbookSpec.dashboards.map createDashboardElement
  let window ← createWindowsElement workbookSpec
  pure (Xml.elem "workbook"
    [ ("version", tableauVersion), ("build-version", buildVersion),
      ("source-build", buildVersion) ] none
    [ Xml.elem "preferences" [] none [],
      Xml.elem "repository-location"
        [("id", "TWB Repository"), ("path", workbookSpec.name ++ ".twb")] none [],
      Xml.elem "datasources" [] none [datasource],
      Xml.elem "worksheets" [] none worksheetElems,
      Xml.elem "dashboards" [] none dashboardElems,
      Xml.elem "windows" [] none [window] ])

/-- The worksheet built for the `i`-th (0-based) recommended visualization
in `_create_workbook_specification`. -/
def makeWorksheet (i : Nat) (vizSpec : VisualizationSpec) : WorksheetSpec :=
  { name := "Sheet " ++ toString (i + 1),
    visualization := vizSpec,
    kpis := [],
    description := some ("Generated visualization: " ++ vizSpec.title),
    dimensions := { width := 800, height := 600 } }

/-- `_create_workbook_specification`: wraps each recommended visualization
in a worksheet, groups all worksheets into one dashboard named
"AI Generated Dashboard", and names the workbook
`{dataset_schema.name}_Dashboard`. -/
def createWorkbookSpecification (request : GenerationRequest) :
    TableauWorkbookSpec :=
  let worksheets :=
    enumMapFrom makeWorksheet 0 request.ai_analysis.recommended_visualizations
  let dashboard : DashboardSpec :=
    { name := "AI Generated Dashboard",
      description := "Automatically generated dashboard based on AI analysis",
      worksheets := worksheets,
      layout := defaultDashboardLayout,
      global_filters := [],
      color_scheme := .tableau10,
      dimensions := { width := 1200, height := 800 } }
  { name := request.dataset_schema.name ++ "_Dashboard",
    description := "AI-generated dashboard for " ++ request.dataset_schema.name,
    dashboards := [dashboard],
    data_source := request.dataset_schema.name,
    version := tableauVersion,
    created_by := "AI Dashboard Generator" }

/-- `_generate_datasource_xml`: the standalone TDS document (connection
details only, no per-column metadata). -/
def generateDatasourceXml (outputDirectory : String)
    (schema : DatasetSchema) : Xml :=
  Xml.elem "datasource"
    [ ("formatted-name", schema.name), ("inline", "true"),
      ("source-platform", "win"), ("version", "18.1") ] none
    [ Xml.elem "connection"
        [ ("class", "textscan"), ("directory", outputDirectory),
          ("filename", schema.name ++ ".csv") ] none [] ]

/-- `_create_twbx_file`: the `(entry name, entry content)` pairs written to
the ZIP archive, in `writestr` order.  `sampleCsv` stands for the output of
`_generate_sample_csv` (whose content draws random synthetic values and is
irrelevant to the archive layout). -/
def twbxEntries (workbookXml datasourceXml sampleCsv : String)
    (request : GenerationRequest) : List (String × String) :=
  [("workbook.twb", workbookXml),
   ("Data/Datasources/datasource.tds", datasourceXml)]
  ++ (if request.include_sample_data then
        [("Data/" ++ request.dataset_schema.name ++ ".csv", sampleCsv)]
      else [])

/-- The body of the `try` block of `generate_workbook`: build the workbook
XML and the TDS XML, then package (`io` stands for the outcome of the file
or ZIP write, the one genuinely effectful step), returning the output file
path `{output_dir}/{workbook_name}.{twb|twbx}`. -/
def generationPipeline (outputDirectory genId : String)
    (request : GenerationRequest) (workbookSpec : TableauWorkbookSpec)
    (io : Except String Unit) : Except String String := do
  let _workbookXml ← generateWorkbookXml outputDirectory genId workbookSpec
    request.dataset_schema
  let _datasourceXml := generateDatasourceXml outputDirectory
    request.dataset_schema
  let _ ← io
  if request.output_format = "twbx" then
    pure (outputDirectory ++ "/" ++ workbookSpec.name ++ ".twbx")
  else
    pure (outputDirectory ++ "/" ++ workbookSpec.name ++ ".twb")

/-- The placeholder workbook specification built in the `except` branch of
`generate_workbook` (pydantic defaults fill `version` and `created_by`). -/
def failedWorkbookSpec : TableauWorkbookSpec :=
  { name := "Failed Generation", description := "Generation failed",
    dashboards := [], data_source := "", version := tableauVersion,
    created_by := "AI Dashboard Generator" }

/-- `generate_workbook`: builds the specification, runs the pipeline, and
catches any raised exception, converting it into a `success=False` result
carrying the exception's message; `elapsed` stands for the measured
`generation_time`. -/
def generateWorkbook (outputDirectory genId : String)
    (request : GenerationRequest) (io : Except String Unit) (elapsed : Rat) :
    GenerationResult :=
  let workbookSpec := createWorkbookSpecification request
  match generationPipeline outputDirectory genId request workbookSpec io with
  | .ok filePath =>
    { workbook_spec := workbookSpec, file_path := filePath,
      generation_time := elapsed, warnings := [], success := true,
      error_message := none }
  | .error e =>
    { workbook_spec := failedWorkbookSpec, file_path := "",
      generation_time := elapsed, warnings := [], success := false,
      error_message := some e }

/-! ## Claim-side description for the encoding claim

For the encoding claim the emitted encodings are compared against a second
definition written from the claim's own wording. -/

/-- The aggregation attribute as the claim words it: the title-cased
`aggregation_type` (e.g. "sum" becomes "Sum") when it is set and not
"none"; no attribute otherwise. -/
def claimAggAttr : Option String → List (String × String)
  | some "sum" => [("aggregation", "Sum")]
  | some "avg" => [("aggregation", "Avg")]
  | some "count" => [("aggregation", "Count")]
  | some "min" => [("aggregation", "Min")]
  | some "max" => [("aggregation", "Max")]
  | _ => []

/-- One encoding as the claim words it: a shelf element whose column text
equals `[<datasource-name>].[<field-name>]`, with the given aggregation
attributes on the column. -/
def claimEncoding (dsName shelf fieldName : String)
    (aggAttrs : List (String × String)) : Xml :=
  Xml.elem shelf [] none
    [ Xml.elem "column" aggAttrs
        (some ("[" ++ dsName ++ "].[" ++ fieldName ++ "]")) [] ]

/-- The fixed encoding order as the claim words it: one "rows" encoding per
`y_axis` field carrying the title-cased aggregation, then one "columns"
encoding per `x_axis` field (never aggregated), then one "color" encoding
iff `color_field` is set (never aggregated), then one "size" encoding iff
`size_field` is set (aggregated like rows). -/
def claimEncodingSequence (dsName : String) (vizSpec : VisualizationSpec) :
    List Xml :=
  vizSpec.y_axis.map
    (fun f => claimEncoding dsName "rows" f (claimAggAttr vizSpec.aggregation_type))
  ++ vizSpec.x_axis.map (fun f => claimEncoding dsName "columns" f [])
  ++ (match vizSpec.color_field with
      | some f => [claimEncoding dsName "color" f []]
      | none => [])
  ++ (match vizSpec.size_field with
      | some f => [claimEncoding dsName "size" f (claimAggAttr vizSpec.aggregation_type)]
      | none => [])

/-! ## Padding values (only used as `List.getD` defaults under
in-bounds indices, where they are never returned) -/

/-- Padding value for `List.getD` on visualization lists. -/
def defaultVisualizationSpec : VisualizationSpec :=
  { chart_type := .bar, title := "", x_axis := [], y_axis := [],
    color_field := none, size_field := none, filters := [],
    color_scheme := .tableau10, show_labels := true, show_legend := true,
    aggregation_type := some "sum" }

/-- Padding value for `List.getD` on worksheet lists. -/
def defaultWorksheetSpec : WorksheetSpec :=
  { name := "", visualization := defaultVisualizationSpec, kpis := [],
    description := none, dimensions := { width := 800, height := 600 } }

/-- Padding value for `List.getD` on dashboard lists. -/
def paddingDashboardSpec : DashboardSpec :=
  { name := "", description := "", worksheets := [],
    layout := defaultDashboardLayout, global_filters := [],
    color_scheme := .tableau10, dimensions := { width := 1200, height := 800 } }

/-- Padding value for `List.getD` on element lists. -/
def paddingXml : Xml := Xml.elem "" [] none []

/-! ## Concrete fixtures used by witnesses and concrete evaluations -/

/-- A concrete AI recommendation. -/
def sampleRecommendation : AIRecommendation :=
  { confidence_score := 1, reasoning := "analysis", alternatives := [] }

/-- A concrete dimension column. -/
def regionColumn : DataColumn :=
  { name := "Region", data_type := .categorical, unique_values := 4,
    null_count := 0, sample_values := ["North", "South"], statistics := none,
    is_key_field := false, recommended_role := some "dimension" }

/-- A concrete measure column. -/
def salesColumn : DataColumn :=
  { name := "Sales", data_type := .float, unique_values := 90,
    null_count := 2, sample_values := [], statistics := some [("mean", 10)],
    is_key_field := false, recommended_role := some "measure" }

/-- A concrete dataset schema without calculated fields. -/
def salesSchema : DatasetSchema :=
  { name := "Sales", total_rows := 100, total_columns := 2,
    columns := [regionColumn, salesColumn], data_quality_score := 1,
    business_context := none, calculated_fields := [] }

/-- A concrete visualization specification. -/
def salesViz : VisualizationSpec :=
  { chart_type := .bar, title := "Sales by Region", x_axis := ["Region"],
    y_axis := ["Sales"], color_field := none, size_field := none,
    filters := [], color_scheme := .tableau10, show_labels := true,
    show_legend := true, aggregation_type := some "sum" }

/-- A concrete AI analysis recommending one visualization. -/
def salesAnalysis : AIAnalysisResponse :=
  { dataset_insights := [], recommended_kpis := [],
    recommended_visualizations := [salesViz],
    dashboard_recommendations := sampleRecommendation,
    layout_suggestions := sampleRecommendation,
    color_scheme_recommendation := sampleRecommendation,
    performance_considerations := [] }

/-- A concrete generation request with one recommended visualization. -/
def salesRequest : GenerationRequest :=
  { dataset_schema := salesSchema, ai_analysis := salesAnalysis,
    user_preferences := [], output_format := "twbx",
    include_sample_data := true }

/-- A concrete AI analysis recommending no visualizations. -/
def emptyVizAnalysis : AIAnalysisResponse :=
  { dataset_insights := [], recommended_kpis := [],
    recommended_visualizations := [],
    dashboard_recommendations := sampleRecommendation,
    layout_suggestions := sampleRecommendation,
    color_scheme_recommendation := sampleRecommendation,
    performance_considerations := [] }

/-- A concrete generation request whose `recommended_visualizations` list is
empty. -/
def emptyVizRequest : GenerationRequest :=
  { dataset_schema := salesSchema, ai_analysis := emptyVizAnalysis,
    user_preferences := [], output_format := "twbx",
    include_sample_data := true }

/-- A concrete calculated field. -/
def profitMarginField : CalculatedFieldSpec :=
  { name := "Profit Margin", formula := "([Profit] / [Sales]) * 100",
    data_type := .float, role := some "measure" }

/-- A concrete dataset schema with one calculated field. -/
def calcSchema : DatasetSchema :=
  { name := "Sales", total_rows := 100, total_columns := 2,
    columns := [regionColumn, salesColumn], data_quality_score := 1,
    business_context := none, calculated_fields := [profitMarginField] }

/-- A concrete generation request over `calcSchema`. -/
def calcRequest : GenerationRequest :=
  { dataset_schema := calcSchema, ai_analysis := salesAnalysis,
    user_preferences := [], output_format := "twbx",
    include_sample_data := true }

/-- A concrete dashboard with two worksheets. -/
def twoSheetDashboard : DashboardSpec :=
  { name := "AI Generated Dashboard", description := "two sheets",
    worksheets := [makeWorksheet 0 salesViz, makeWorksheet 1 salesViz],
    layout := defaultDashboardLayout, global_filters := [],
    color_scheme := .tableau10, dimensions := { width := 1200, height := 800 } }

/-! ## Helper lemmas -/

/-- An enumerating loop produces one value per list element. -/
theorem enumMapFrom_length {α β : Type} (f : Nat → α → β) (k : Nat)
    (l : List α) : (enumMapFrom f k l).length = l.length := by
  induction l generalizing k with
  | nil => rfl
  | cons a as ih => simp [enumMapFrom, ih]

/-- In-bounds indexing into an enumerating loop's output. -/
theorem enumMapFrom_getD {α β : Type} (f : Nat → α → β) (k : Nat)
    (l : List α) (i : Nat) (h : i < l.length) (dB : β) (dA : α) :
    (enumMapFrom f k l).getD i dB = f (k + i) (l.getD i dA) := by
  induction l generalizing k i with
  | nil => simp at h
  | cons a as ih =>
    cases i with
    | zero => rfl
    | succ n =>
      have hn : n < as.length := by simpa using h
      have := ih (k + 1) n hn
      simpa [enumMapFrom, Nat.add_assoc, Nat.add_comm 1 n] using this

/-- The zones list has one zone per worksheet. -/
theorem dashboardZones_length (dashboardSpec : DashboardSpec) :
    (dashboardZones dashboardSpec).length = dashboardSpec.worksheets.length :=
  enumMapFrom_length _ _ _

/-! ## C7: the `.twbx` archive layout -/

/-- C7: for every generation with output_format "twbx", the ZIP archive
contains exactly the entries `workbook.twb` (the workbook XML) and
`Data/Datasources/datasource.tds` (the datasource XML), plus the entry
`Data/{dataset_schema.name}.csv` if and only if
`request.include_sample_data` is true. -/
theorem twbx_archive_entries (workbookXml datasourceXml sampleCsv : String)
    (request : GenerationRequest) :
    (twbxEntries workbookXml datasourceXml sampleCsv request).map Prod.fst
      = ["workbook.twb", "Data/Datasources/datasource.tds"]
        ++ (if request.include_sample_data then
              ["Data/" ++ request.dataset_schema.name ++ ".csv"]
            else []) := by
  cases h : request.include_sample_data <;> simp [twbxEntries, h]

/-! ## C8: the data-type mapping -/

/-- C8: the semantic-type-to-Tableau-type mapping is a pure total function
with map(integer)="integer", map(float)="real", map(string)="string",
map(datetime)="datetime", map(boolean)="boolean", map(categorical)="string",
and the only data type not listed in the table, the enum value "date",
maps to the default "string" (the seven equations cover the whole
`DataType` domain). -/
theorem tableau_data_type_mapping :
    getTableauDataType .integer = "integer"
    ∧ getTableauDataType .float = "real"
    ∧ getTableauDataType .string = "string"
    ∧ getTableauDataType .datetime = "datetime"
    ∧ getTableauDataType .boolean = "boolean"
    ∧ getTableauDataType .categorical = "string"
    ∧ getTableauDataType .date = "string" :=
  ⟨rfl, rfl, rfl, rfl, rfl, rfl, rfl⟩

/-! ## C9: the declared domain of `aggregation_type` -/

/-- C9 counterexample: the claim asserts that constructing a
`VisualizationSpec` with aggregation_type="none" succeeds, but the
pydantic `Literal` on the field is `["sum", "avg", "count", "min", "max"]`
(no "none"), so the construction raises a ValidationError. -/
theorem aggregation_type_none_rejected :
    (mkVisualizationSpec .bar "Sales by Region" ["Region"] ["Sales"]
      none none [] .tableau10 true true (some "none")).isOk = false := rfl

/-- C9 amended: the declared domain of
`VisualizationSpec.aggregation_type` is {sum, avg, count, min, max}
(optional, default "sum"): construction succeeds with each of these five
values and with the value unset (None), while aggregation_type="none" is
rejected at construction time. -/
theorem aggregation_type_declared_domain :
    (mkVisualizationSpec .bar "T" ["x"] ["y"] none none [] .tableau10
      true true (some "sum")).isOk = true
    ∧ (mkVisualizationSpec .bar "T" ["x"] ["y"] none none [] .tableau10
      true true (some "avg")).isOk = true
    ∧ (mkVisualizationSpec .bar "T" ["x"] ["y"] none none [] .tableau10
      true true (some "count")).isOk = true
    ∧ (mkVisualizationSpec .bar "T" ["x"] ["y"] none none [] .tableau10
      true true (some "min")).isOk = true
    ∧ (mkVisualizationSpec .bar "T" ["x"] ["y"] none none [] .tableau10
      true true (some "max")).isOk = true
    ∧ (mkVisualizationSpec .bar "T" ["x"] ["y"] none none [] .tableau10
      true true none).isOk = true
    ∧ (mkVisualizationSpec .bar "T" ["x"] ["y"] none none [] .tableau10
      true true (some "none")).isOk = false :=
  ⟨rfl, rfl, rfl, rfl, rfl, rfl, rfl⟩

/-! ## C10: the `ValidationResult` invariant -/

/-- C10 counterexample: the claim asserts that every constructible
`ValidationResult` satisfies is_valid=false iff errors non-empty; the
model has no validator linking the two fields, so the instance with
is_valid=true and one error is constructible and violates the claimed
invariant. -/
theorem validation_result_invariant_fails :
    ¬ ((mkValidationResult true ["missing required column"] [] []).is_valid
          = false
        ↔ (mkValidationResult true ["missing required column"] [] []).errors
          ≠ []) := by
  decide

/-- C10 amended: `ValidationResult` declares no constraint linking
`is_valid` and `errors`, so the invariant "is_valid is false iff errors is
non-empty" is not enforced by the type: construction admits an instance
with is_valid=true and non-empty errors, as well as the invariant-abiding
instance with is_valid=false requiring empty errors; the invariant holds
only for instances producers choose to build. -/
theorem validation_result_invariant_not_enforced :
    (mkValidationResult true ["missing required column"] [] []).is_valid = true
    ∧ (mkValidationResult true ["missing required column"] [] []).errors ≠ []
    ∧ (mkValidationResult false [] [] []).is_valid = false
    ∧ (mkValidationResult false [] [] []).errors = [] := by
  refine ⟨rfl, ?_, rfl, rfl⟩
  decide

/-! ## C1: the top-level error-handling contract -/

/-- C1: for every structurally valid GenerationRequest,
`generate_workbook` returns a GenerationResult (the embedding is a total
function — the try/except boundary converts every raised exception into a
result instead of propagating it); in the returned result success=true
holds exactly when error_message is null, and on failure error_message
equals the message of the exception raised inside the pipeline. -/
theorem generate_workbook_result_invariant (outputDirectory genId : String)
    (request : GenerationRequest) (io : Except String Unit) (elapsed : Rat) :
    ((generateWorkbook outputDirectory genId request io elapsed).success = true
      ↔ (generateWorkbook outputDirectory genId request io elapsed).error_message
          = none)
    ∧ ∀ e, generationPipeline outputDirectory genId request
          (createWorkbookSpecification request) io = Except.error e →
        (generateWorkbook outputDirectory genId request io elapsed).success
            = false
        ∧ (generateWorkbook outputDirectory genId request io elapsed).error_message
            = some e := by
  cases hp : generationPipeline outputDirectory genId request
      (createWorkbookSpecification request) io with
  | error e =>
    refine ⟨by simp [generateWorkbook, hp], ?_⟩
    intro e' he'
    cases he'
    simp [generateWorkbook, hp]
  | ok p =>
    refine ⟨by simp [generateWorkbook, hp], ?_⟩
    intro e' he'
    cases he'

/-- Witness for C1: at a concrete request whose only failing step is the
disk write, the pipeline raises "disk full" and the result reports it. -/
theorem generate_workbook_result_invariant_witness :
    generationPipeline "data/outputs" "AAAA1111" salesRequest
        (createWorkbookSpecification salesRequest) (Except.error "disk full")
      = Except.error "disk full"
    ∧ (generateWorkbook "data/outputs" "AAAA1111" salesRequest
        (Except.error "disk full") 0).success = false
    ∧ (generateWorkbook "data/outputs" "AAAA1111" salesRequest
        (Except.error "disk full") 0).error_message = some "disk full" :=
  ⟨rfl,
   (generate_workbook_result_invariant "data/outputs" "AAAA1111" salesRequest
      (Except.error "disk full") 0).2 "disk full" rfl⟩

/-! ## C2: generation for an empty `recommended_visualizations` list -/

/-- C2: the claim asserts that an empty `recommended_visualizations` list
yields success=true with one zero-worksheet dashboard and an empty zones
element.  The specification builder does build one dashboard with zero
worksheets, but `_create_windows_element` then evaluates
`workbook_spec.dashboards[0].worksheets[0].name` (its guard only checks
that `dashboards` is non-empty, so the `"Sheet1"` fallback is dead code in
this pipeline, which always builds exactly one dashboard), raising
IndexError; `generate_workbook` therefore returns success=false with
error_message "list index out of range" even when the file write itself
would have succeeded. -/
theorem generate_workbook_empty_visualizations_fails :
    ((createWorkbookSpecification emptyVizRequest).dashboards.map
        (fun d => d.worksheets.length)) = [0]
    ∧ (generateWorkbook "data/outputs" "AAAA1111" emptyVizRequest
        (Except.ok ()) 0).success = false
    ∧ (generateWorkbook "data/outputs" "AAAA1111" emptyVizRequest
        (Except.ok ()) 0).error_message = some "list index out of range" :=
  ⟨rfl, rfl, rfl⟩

/-! ## C3: calculated-field metadata records -/

/-- C3: the claim describes the metadata records emitted for a schema with
a non-empty `calculated_fields` list, but `_add_calculated_field_metadata`
subscripts each list element as a dictionary (`calc_field['name']`) while
the list is declared (and populated as) `List[CalculatedFieldSpec]` —
pydantic model instances, which are not subscriptable.  The first
calculated field therefore raises TypeError before any calculated-field
record is emitted, and the whole generation fails. -/
theorem calculated_field_metadata_raises :
    createDatasourceElement "data/outputs" "AAAA1111" calcSchema
      = Except.error "TypeError: CalculatedFieldSpec object is not subscriptable"
    ∧ (generateWorkbook "data/outputs" "AAAA1111" calcRequest
        (Except.ok ()) 0).success = false
    ∧ (generateWorkbook "data/outputs" "AAAA1111" calcRequest
        (Except.ok ()) 0).error_message
      = some "TypeError: CalculatedFieldSpec object is not subscriptable" :=
  ⟨rfl, rfl, rfl⟩

/-! ## C4: the workbook specification builder -/

/-- C4: for every GenerationRequest, the built workbook specification
contains exactly one DashboardSpec named the fixed constant
"AI Generated Dashboard"; its worksheets correspond one-to-one and in
order to `ai_analysis.recommended_visualizations`, the worksheet at
1-based position i being named "Sheet i" and wrapping the i-th
visualization; and the workbook's name equals
`dataset_schema.name + "_Dashboard"`. -/
theorem create_workbook_specification_structure (request : GenerationRequest) :
    (createWorkbookSpecification request).name
        = request.dataset_schema.name ++ "_Dashboard"
    ∧ (createWorkbookSpecification request).dashboards.length = 1
    ∧ ((createWorkbookSpecification request).dashboards.getD 0
        paddingDashboardSpec).name = "AI Generated Dashboard"
    ∧ ((createWorkbookSpecification request).dashboards.getD 0
        paddingDashboardSpec).worksheets.length
      = request.ai_analysis.recommended_visualizations.length
    ∧ ∀ i, i < request.ai_analysis.recommended_visualizations.length →
        (((createWorkbookSpecification request).dashboards.getD 0
            paddingDashboardSpec).worksheets.getD i defaultWorksheetSpec).name
          = "Sheet " ++ toString (i + 1)
        ∧ (((createWorkbookSpecification request).dashboards.getD 0
            paddingDashboardSpec).worksheets.getD i
              defaultWorksheetSpec).visualization
          = request.ai_analysis.recommended_visualizations.getD i
              defaultVisualizationSpec := by
  refine ⟨rfl, rfl, rfl, ?_, ?_⟩
  · exact enumMapFrom_length makeWorksheet 0
      request.ai_analysis.recommended_visualizations
  · intro i hi
    have h1 := enumMapFrom_getD makeWorksheet 0
      request.ai_analysis.recommended_visualizations i hi
      defaultWorksheetSpec defaultVisualizationSpec
    constructor
    · show ((enumMapFrom makeWorksheet 0
          request.ai_analysis.recommended_visualizations).getD i
            defaultWorksheetSpec).name = _
      rw [h1]
      simp [makeWorksheet]
    · show ((enumMapFrom makeWorksheet 0
          request.ai_analysis.recommended_visualizations).getD i
            defaultWorksheetSpec).visualization = _
      rw [h1]
      rfl

/-- Witness for C4: at the concrete one-visualization request,
position 1 holds a worksheet named "Sheet 1" wrapping `salesViz`. -/
theorem create_workbook_specification_structure_witness :
    0 < salesRequest.ai_analysis.recommended_visualizations.length
    ∧ (((createWorkbookSpecification salesRequest).dashboards.getD 0
          paddingDashboardSpec).worksheets.getD 0 defaultWorksheetSpec).name
        = "Sheet 1"
    ∧ (((createWorkbookSpecification salesRequest).dashboards.getD 0
          paddingDashboardSpec).worksheets.getD 0
            defaultWorksheetSpec).visualization = salesViz := by
  have h := (create_workbook_specification_structure salesRequest).2.2.2.2 0
    (by decide)
  exact ⟨by decide, h.1, h.2⟩

/-! ## C5: the dashboard grid positioning -/

/-- C5: for every dashboard with N worksheets and every index i < N, with
columns = 2 if N > 2 else N, the zone emitted for the worksheet at 0-based
index i has x = (i mod columns)*400, y = (i div columns)*300, w = 400 and
h = 300; equivalently, for N ≤ 2, worksheet i sits at x = i*400, y = 0. -/
theorem zone_grid_positioning (dashboardSpec : DashboardSpec) (i : Nat)
    (hi : i < dashboardSpec.worksheets.length) :
    ((dashboardZones dashboardSpec).getD i paddingXml).attr "x"
        = some (toString (i % (if dashboardSpec.worksheets.length > 2 then 2
            else dashboardSpec.worksheets.length) * 400))
    ∧ ((dashboardZones dashboardSpec).getD i paddingXml).attr "y"
        = some (toString (i / (if dashboardSpec.worksheets.length > 2 then 2
            else dashboardSpec.worksheets.length) * 300))
    ∧ ((dashboardZones dashboardSpec).getD i paddingXml).attr "w" = some "400"
    ∧ ((dashboardZones dashboardSpec).getD i paddingXml).attr "h" = some "300"
    ∧ (dashboardSpec.worksheets.length ≤ 2 →
        ((dashboardZones dashboardSpec).getD i paddingXml).attr "x"
            = some (toString (i * 400))
        ∧ ((dashboardZones dashboardSpec).getD i paddingXml).attr "y"
            = some "0") := by
  have hz : (dashboardZones dashboardSpec).getD i paddingXml
      = zoneElement dashboardSpec.worksheets.length i
          (dashboardSpec.worksheets.getD i defaultWorksheetSpec) := by
    unfold dashboardZones
    rw [enumMapFrom_getD _ 0 _ i hi paddingXml defaultWorksheetSpec]
    rw [Nat.zero_add]
  rw [hz]
  refine ⟨rfl, rfl, rfl, rfl, ?_⟩
  intro hN
  have hcols : (if dashboardSpec.worksheets.length > 2 then 2
      else dashboardSpec.worksheets.length) = dashboardSpec.worksheets.length :=
    if_neg (by omega)
  have hmod : i % dashboardSpec.worksheets.length = i := Nat.mod_eq_of_lt hi
  have hdiv : i / dashboardSpec.worksheets.length = 0 := Nat.div_eq_of_lt hi
  constructor
  · show some (toString (i % (if dashboardSpec.worksheets.length > 2 then 2
        else dashboardSpec.worksheets.length) * 400)) = _
    rw [hcols, hmod]
  · show some (toString (i / (if dashboardSpec.worksheets.length > 2 then 2
        else dashboardSpec.worksheets.length) * 300)) = _
    rw [hcols, hdiv]
    rfl


/-- Witness for C5: in a two-worksheet dashboard, the zone at index 1 sits
at x = 400, y = 0 with w = 400, h = 300. -/
theorem zone_grid_positioning_witness :
    1 < twoSheetDashboard.worksheets.length
    ∧ ((dashboardZones twoSheetDashboard).getD 1 paddingXml).attr "x"
        = some "400"
    ∧ ((dashboardZones twoSheetDashboard).getD 1 paddingXml).attr "y"
        = some "0"
    ∧ ((dashboardZones twoSheetDashboard).getD 1 paddingXml).attr "w"
        = some "400"
    ∧ ((dashboardZones twoSheetDashboard).getD 1 paddingXml).attr "h"
        = some "300" := by
  have h := zone_grid_positioning twoSheetDashboard 1 (by decide)
  have h5 := h.2.2.2.2 (by decide)
  exact ⟨by decide, h5.1, h5.2, h.2.2.1, h.2.2.2.1⟩

/-! ## C6: encoding order and aggregation -/

/-- A shelf encoding built with the literal aggregation string "none"
(as the columns/color call sites pass it) carries no aggregation
attribute. -/
theorem addEncoding_none_aggregation (dsName shelf fieldName : String) :
    addEncoding dsName shelf fieldName (some "none")
      = claimEncoding dsName shelf fieldName [] := rfl

/-- For any `aggregation_type` admitted by the pydantic `Literal`, the
source's truthiness-plus-`title()` handling agrees with the claim's
five-entry title-case table. -/
theorem addEncoding_claim (dsName shelf fieldName : String)
    (agg : Option String) (h : validAggregationType agg = true) :
    addEncoding dsName shelf fieldName agg
      = claimEncoding dsName shelf fieldName (claimAggAttr agg) := by
  cases agg with
  | none => rfl
  | some s =>
    have hs : s = "sum" ∨ s = "avg" ∨ s = "count" ∨ s = "min" ∨ s = "max" := by
      simpa [validAggregationType] using h
    rcases hs with rfl | rfl | rfl | rfl | rfl <;> rfl

/-- C6: for every worksheet's visualization (with a valid
`aggregation_type` and set-or-absent optional fields), the encodings are
emitted in the fixed order rows (per y_axis field, carrying the
title-cased aggregation), columns (per x_axis field, never aggregated),
color (iff color_field is set, never aggregated), size (iff size_field is
set, aggregated like rows), each column text being
`[<datasource-name>].[<field-name>]`. -/
theorem encoding_order_and_aggregation (dsName : String)
    (vizSpec : VisualizationSpec)
    (hAgg : validAggregationType vizSpec.aggregation_type = true)
    (hColor : vizSpec.color_field ≠ some "")
    (hSize : vizSpec.size_field ≠ some "") :
    visualizationEncodings dsName vizSpec
      = claimEncodingSequence dsName vizSpec := by
  have h1 : (fun f => addEncoding dsName "rows" f vizSpec.aggregation_type)
      = fun f => claimEncoding dsName "rows" f (claimAggAttr vizSpec.aggregation_type) :=
    funext fun f => addEncoding_claim dsName "rows" f _ hAgg
  have h2 : (fun f => addEncoding dsName "columns" f (some "none"))
      = fun f => claimEncoding dsName "columns" f [] :=
    funext fun f => addEncoding_none_aggregation dsName "columns" f
  unfold visualizationEncodings claimEncodingSequence
  rw [h1, h2]
  cases hcf : vizSpec.color_field with
  | none =>
    cases hsf : vizSpec.size_field with
    | none => rfl
    | some g =>
      have hg : g ≠ "" := fun hh => hSize (by rw [hsf, hh])
      dsimp only
      rw [if_pos hg, addEncoding_claim dsName "size" g _ hAgg]
  | some f =>
    have hf : f ≠ "" := fun hh => hColor (by rw [hcf, hh])
    cases hsf : vizSpec.size_field with
    | none =>
      dsimp only
      rw [if_pos hf, addEncoding_none_aggregation]
    | some g =>
      have hg : g ≠ "" := fun hh => hSize (by rw [hsf, hh])
      dsimp only
      rw [if_pos hf, if_pos hg, addEncoding_none_aggregation,
        addEncoding_claim dsName "size" g _ hAgg]

/-- Witness for C6 at the concrete visualization `salesViz` and a concrete
datasource name. -/
theorem encoding_order_and_aggregation_witness :
    (validAggregationType salesViz.aggregation_type = true
      ∧ salesViz.color_field ≠ some ""
      ∧ salesViz.size_field ≠ some "")
    ∧ visualizationEncodings "federated.AAAA1111" salesViz
        = claimEncodingSequence "federated.AAAA1111" salesViz :=
  ⟨⟨by decide, by decide, by decide⟩,
   encoding_order_and_aggregation "federated.AAAA1111" salesViz
     (by decide) (by decide) (by decide)⟩
